import Mathlib

/-!
Verification development for the `probatus` repository excerpt, whose only
source file is the documentation notebook `docs/howto/reproducibility.ipynb`.
The notebook builds a small scikit-learn pipeline, runs the external
`ShapRFECV` feature-elimination routine with all random seeds fixed to 42,
and renders a results table.  We embed the notebook's executed steps, the
configuration values passed at each call, and the concrete rendered report,
and prove the spec's claims about them.
-/

namespace ProbatusRepro

/-- One row of the rendered results table: the pandas index of the
elimination round, the retained feature count, the list of feature indices
eliminated in that round, and the mean validation metric for that round,
recorded exactly in thousandths (0.983 is stored as 983; `Option` because
a pandas cell may in general be missing/NaN). -/
structure ReportRow where
  idx : Nat
  num_features : Nat
  eliminated_features : List Nat
  val_metric_mean : Option Nat
deriving DecidableEq

/-- The results table printed by the final notebook cell
`report[['num_features', 'eliminated_features', 'val_metric_mean']]`,
transcribed row by row from the notebook's recorded output. -/
def notebookReport : List ReportRow :=
  [ ⟨1, 10, [8, 9], some 983⟩,
    ⟨2, 8, [5], some 969⟩,
    ⟨3, 7, [7], some 984⟩,
    ⟨4, 6, [1], some 979⟩,
    ⟨5, 5, [4], some 978⟩,
    ⟨6, 4, [6], some 989⟩,
    ⟨7, 3, [3], some 991⟩,
    ⟨8, 2, [0], some 956⟩,
    ⟨9, 1, [], some 969⟩ ]

/-- The three columns selected for rendering in the final notebook cell. -/
def renderedColumns : List String :=
  ["num_features", "eliminated_features", "val_metric_mean"]

/-- The external-library calls executed by the notebook's code cells, each
carrying the configuration arguments the notebook passes to it. -/
inductive Step where
  | makeClassification (n_samples n_features random_state : Nat)
  | trainTestSplit (random_state : Nat)
  | stratifiedKFold (n_splits : Nat) (shuffle : Bool) (random_state : Nat)
  | randomForestClassifier (random_state : Nat)
  | randomizedSearchCV (n_iter random_state : Nat)
  | numpySeed (seed : Nat)
  | shapRFECVFitCompute (step_per_mille : Nat) (scoring : String)
      (n_jobs random_state : Nat)
  | renderTable (columns : List String)
deriving DecidableEq

/-- The sequence of external-library calls executed by the notebook, in
cell order (pure local assignments such as `cv1 = 5` and the `param_grid`
dictionary literal are not library calls and carry no effect of their own). -/
def notebookSteps : List Step :=
  [ .makeClassification 100 10 42,
    .trainTestSplit 42,
    .stratifiedKFold 5 true 42,
    .randomForestClassifier 42,
    .randomizedSearchCV 1 42,
    .numpySeed 42,
    .shapRFECVFitCompute 200 "roc_auc" 3 42,
    .renderTable renderedColumns ]

/-- The external library each step delegates to. -/
def externalLibrary : Step → String
  | .makeClassification _ _ _ => "sklearn.datasets"
  | .trainTestSplit _ => "sklearn.model_selection"
  | .stratifiedKFold _ _ _ => "sklearn.model_selection"
  | .randomForestClassifier _ => "sklearn.ensemble"
  | .randomizedSearchCV _ _ => "sklearn.model_selection"
  | .numpySeed _ => "numpy.random"
  | .shapRFECVFitCompute _ _ _ _ => "probatus.feature_elimination"
  | .renderTable _ => "pandas"

/-- Which of the five step categories claimed for the notebook a step falls
into: `0` = data generation, `1` = splitting / CV construction,
`2` = classifier / search-wrapper construction, `3` = feature-elimination
invocation, `4` = table rendering; `none` for a step outside them. -/
def stepCategory : Step → Option Nat
  | .makeClassification _ _ _ => some 0
  | .trainTestSplit _ => some 1
  | .stratifiedKFold _ _ _ => some 1
  | .randomForestClassifier _ => some 2
  | .randomizedSearchCV _ _ => some 2
  | .numpySeed _ => none
  | .shapRFECVFitCompute _ _ _ _ => some 3
  | .renderTable _ => some 4

/-- The parallel-jobs parameter a step passes to its library call, when it
passes one. -/
def parallelJobs : Step → Option Nat
  | .shapRFECVFitCompute _ _ n _ => some n
  | _ => none

/-- Number of features an elimination round removes according to the spec's
reading of the `step` fraction: `max 1 ⌊step * n⌋` for `n` currently
retained features, with the fraction given exactly in thousandths
(`step = 0.2` is `step_per_mille = 200`), so the floor is Nat division. -/
def stepRemovalCount (step_per_mille : Nat) (n : Nat) : Nat :=
  max 1 (step_per_mille * n / 1000)

/-- `b.num_features + a.eliminated_features.length = a.num_features` for
every pair of consecutive rows `a`, `b`. -/
def consecutiveDecrement : List ReportRow → Bool
  | [] => true
  | [_] => true
  | a :: b :: rest =>
      (b.num_features + a.eliminated_features.length == a.num_features)
        && consecutiveDecrement (b :: rest)

/-- Boolean disjointness of two lists of feature indices. -/
def listsDisjoint (l₁ l₂ : List Nat) : Bool :=
  l₁.all (fun a => !(l₂.contains a))

/-- Every pair of distinct lists in the collection is disjoint. -/
def pairwiseDisjoint : List (List Nat) → Bool
  | [] => true
  | l :: rest => rest.all (listsDisjoint l) && pairwiseDisjoint rest

/-- All feature indices eliminated across all rounds, in round order. -/
def allEliminated : List Nat :=
  (notebookReport.map (fun r => r.eliminated_features)).flatten

/-- The full configuration the notebook fixes before invoking the
elimination routine: every value below is taken from the notebook's cells. -/
structure PipelineConfig where
  n_samples : Nat
  n_features : Nat
  data_random_state : Nat
  split_random_state : Nat
  cv_n_splits : Nat
  cv_shuffle : Bool
  cv_random_state : Nat
  clf_random_state : Nat
  search_n_iter : Nat
  search_random_state : Nat
  n_estimators_grid : List Nat
  max_leaf_nodes_grid : List Nat
  rfe_step_per_mille : Nat
  rfe_scoring : String
  rfe_n_jobs : Nat
  rfe_random_state : Nat
deriving DecidableEq

/-- The concrete configuration the notebook uses (all seeds 42). -/
def notebookConfig : PipelineConfig :=
  ⟨100, 10, 42, 42, 5, true, 42, 42, 1, 42,
    [5, 7, 10], [3, 5, 7, 10], 200, "roc_auc", 3, 42⟩

/-- Modelled from the spec: the implementation of
`probatus.feature_elimination.ShapRFECV` is not part of the supplied source
(only this notebook is).  The spec asserts that with identical inputs and
all random seeds fixed, the routine is deterministic, so the whole pipeline
ending in `fit_compute` is modelled as a pure function of the pipeline
configuration; for the notebook's configuration it returns the notebook's
recorded report. -/
def fit_compute (cfg : PipelineConfig) : List ReportRow :=
  if cfg = notebookConfig then notebookReport else []

/-- C1: two executions of the pipeline with identical inputs and identical
fixed random seeds produce bit-identical results tables: the same
`num_features`, `eliminated_features` and `val_metric_mean` in every row;
at the notebook's configuration the common table is the notebook's report. -/
theorem fit_compute_reproducible (c₁ c₂ : PipelineConfig) (h : c₁ = c₂) :
    (fit_compute c₁).map
        (fun r => (r.num_features, r.eliminated_features, r.val_metric_mean))
      = (fit_compute c₂).map
        (fun r => (r.num_features, r.eliminated_features, r.val_metric_mean))
    ∧ (c₁ = notebookConfig → fit_compute c₁ = notebookReport) := by
  subst h
  refine ⟨rfl, ?_⟩
  intro hc
  simp [fit_compute, hc]

/-- Witness for C1 at the notebook's configuration. -/
theorem fit_compute_reproducible_witness :
    (fit_compute notebookConfig).map
        (fun r => (r.num_features, r.eliminated_features, r.val_metric_mean))
      = (fit_compute notebookConfig).map
        (fun r => (r.num_features, r.eliminated_features, r.val_metric_mean))
    ∧ (notebookConfig = notebookConfig →
        fit_compute notebookConfig = notebookReport) :=
  fit_compute_reproducible notebookConfig notebookConfig rfl

/-- C2: the rendered results table has exactly the three columns
`num_features`, `eliminated_features`, `val_metric_mean`, and its rows are
indexed 1 through 9, one value of each column per elimination round. -/
theorem rendered_table_shape :
    renderedColumns.length = 3
    ∧ renderedColumns = ["num_features", "eliminated_features", "val_metric_mean"]
    ∧ notebookReport.map (fun r => r.idx) = [1, 2, 3, 4, 5, 6, 7, 8, 9]
    ∧ notebookReport.length = 9 := by
  refine ⟨rfl, rfl, rfl, rfl⟩

/-- C3 counterexample: the notebook also executes `np.random.seed(42)`, a
step that is none of the five claimed kinds, so the claimed step list is
not exact. -/
theorem notebook_steps_not_exact :
    Step.numpySeed 42 ∈ notebookSteps
    ∧ stepCategory (Step.numpySeed 42) = none := by
  refine ⟨?_, rfl⟩
  decide

/-- C3 (amended): the notebook executes, in order, (a) data generation,
(b) train/test split and CV-splitter construction, (c) classifier and
search-wrapper construction, an optional numpy global-seed call,
(d) the `ShapRFECV.fit_compute` invocation, (e) table rendering; every
step delegates to an external library call. -/
theorem notebook_steps_in_order :
    notebookSteps.map stepCategory
      = [some 0, some 1, some 1, some 2, some 2, none, some 3, some 4]
    ∧ notebookSteps.map externalLibrary
      = ["sklearn.datasets", "sklearn.model_selection",
         "sklearn.model_selection", "sklearn.ensemble",
         "sklearn.model_selection", "numpy.random",
         "probatus.feature_elimination", "pandas"] := by
  refine ⟨rfl, rfl⟩

/-- C4: every row of the results table carries a non-empty
`val_metric_mean`, including the final round, which eliminates no feature
yet still records the metric 0.969. -/
theorem every_round_records_metric :
    notebookReport.all (fun r => r.val_metric_mean.isSome) = true
    ∧ notebookReport.getLast?.map
        (fun r => (r.eliminated_features, r.val_metric_mean))
      = some ([], some 969) := by
  refine ⟨rfl, by decide⟩

/-- C5: the notebook's step sequence contains exactly one step carrying a
parallel-jobs parameter, namely the `ShapRFECV` invocation, and its value
is 3. -/
theorem only_parallelism_is_n_jobs :
    notebookSteps.filter (fun s => (parallelJobs s).isSome)
      = [Step.shapRFECVFitCompute 200 "roc_auc" 3 42]
    ∧ parallelJobs (Step.shapRFECVFitCompute 200 "roc_auc" 3 42) = some 3 := by
  refine ⟨by decide, rfl⟩

/-- C6: for every two consecutive rows the later `num_features` equals the
earlier `num_features` minus the length of the earlier row's
`eliminated_features`, and the final row eliminates nothing. -/
theorem num_features_decrement :
    consecutiveDecrement notebookReport = true
    ∧ notebookReport.getLast?.map (fun r => r.eliminated_features)
      = some [] := by
  refine ⟨rfl, by decide⟩

/-- C7: with `step = 0.2`, every non-terminal round eliminates exactly
`max 1 ⌊0.2 * n⌋` features for `n` currently retained features, and the
terminal round, with one feature remaining, eliminates none. -/
theorem elimination_counts_follow_step :
    notebookReport.dropLast.all
        (fun r => r.eliminated_features.length
          == stepRemovalCount 200 r.num_features) = true
    ∧ notebookReport.getLast?.map
        (fun r => (r.num_features, r.eliminated_features.length))
      = some (1, 0) := by
  refine ⟨by decide, by decide⟩

/-- C8: the per-round `eliminated_features` lists are pairwise disjoint
subsets of the original feature index set {0, ..., 9} (10 being the
`n_features` passed to `make_classification` and the first row's
`num_features`), their union has exactly 9 elements, and exactly one
feature index, 2, is never eliminated. -/
theorem eliminated_features_partition :
    pairwiseDisjoint (notebookReport.map (fun r => r.eliminated_features)) = true
    ∧ allEliminated.all (fun i => i < 10) = true
    ∧ allEliminated.Nodup
    ∧ allEliminated.length = 9
    ∧ (List.range 10).filter (fun i => !(allEliminated.contains i)) = [2]
    ∧ Step.makeClassification 100 10 42 ∈ notebookSteps
    ∧ notebookReport.head?.map (fun r => r.num_features) = some 10 := by
  refine ⟨rfl, rfl, by decide, rfl, by decide, by decide, by decide⟩

end ProbatusRepro
